import Mathlib

/-
Verification development for the pyads ADS client module (pyads/pyads.py).

The module is a thin synchronous wrapper over the Beckhoff TcAdsDll: each
public function checks the platform gate, issues one or more DLL calls, and
maps a nonzero status code to an ADSError exception.  We embed the module
shallowly: the DLL is an oracle (`Transport`) of response functions, each
operation is a pure function returning an `Except` result together with the
list of DLL calls it issued (the trace), and the process-wide
`callback_store` dictionary is threaded explicitly through the two
notification operations that touch it.
-/

namespace PyAds

/-- Modelled from the spec: the reserved index-group constants
`ADSIGRP_SYM_HNDBYNAME`, `ADSIGRP_SYM_VALBYHND`, `ADSIGRP_SYM_RELEASEHND`
and the read buffer size `STRING_BUFFER` are imported by the source from
`pyads.constants`, which is not part of the given source tree.  The spec
describes them as three fixed, distinct 32-bit group identifiers used for
name resolution, handle-based value access and handle release; we use the
standard ADS values. -/
def ADSIGRP_SYM_HNDBYNAME : Nat := 0xF003

/-- Modelled from the spec: reserved index-group for value access by handle
(see `ADSIGRP_SYM_HNDBYNAME`). -/
def ADSIGRP_SYM_VALBYHND : Nat := 0xF005

/-- Modelled from the spec: reserved index-group for handle release
(see `ADSIGRP_SYM_HNDBYNAME`). -/
def ADSIGRP_SYM_RELEASEHND : Nat := 0xF006

/-- Modelled from the spec: the size of the receive buffer allocated for a
string-typed read; the spec describes string decode as reading up to the
declared capacity and stopping at the first null byte. -/
def STRING_BUFFER : Nat := 1024

/-- Little-endian byte encoding of a natural number into `len` bytes
(models how ctypes lays out an unsigned integer object in memory;
overflowing bits are masked, as ctypes masks unsigned values). -/
def toBytesLE : Nat → Nat → List Nat
  | 0, _ => []
  | len + 1, v => v % 256 :: toBytesLE len (v / 256)

/-- Little-endian byte decoding (models reading a ctypes unsigned integer
object back as a Python int). -/
def fromBytesLE : List Nat → Nat
  | [] => 0
  | b :: bs => b % 256 + 256 * fromBytesLE bs

/-- UTF-8 encoding of a single character (models Python `str.encode()`). -/
def utf8Bytes (c : Char) : List Nat :=
  let n := c.toNat
  if n < 0x80 then [n]
  else if n < 0x800 then [0xC0 + n / 64, 0x80 + n % 64]
  else if n < 0x10000 then [0xE0 + n / 4096, 0x80 + n / 64 % 64, 0x80 + n % 64]
  else [0xF0 + n / 262144, 0x80 + n / 4096 % 64, 0x80 + n / 64 % 64, 0x80 + n % 64]

/-- UTF-8 encoding of a string (models Python `str.encode()`). -/
def strBytes (s : String) : List Nat :=
  (s.data.map utf8Bytes).flatten

/-- Whether a byte is a UTF-8 continuation byte. -/
def utf8Cont (b : Nat) : Bool :=
  0x80 ≤ b && b < 0xC0

/-- UTF-8 decoding with validation (models Python `bytes.decode`, which
raises `UnicodeDecodeError` on invalid input; here `none`). -/
def utf8DecodeChars : List Nat → Option (List Char)
  | [] => some []
  | b :: bs =>
    if b < 0x80 then
      (utf8DecodeChars bs).map (fun cs => Char.ofNat b :: cs)
    else if b < 0xC2 then none
    else if b < 0xE0 then
      match bs with
      | b1 :: t =>
        if utf8Cont b1 then
          (utf8DecodeChars t).map (fun cs => Char.ofNat ((b - 0xC0) * 64 + (b1 - 0x80)) :: cs)
        else none
      | [] => none
    else if b < 0xF0 then
      match bs with
      | b1 :: b2 :: t =>
        if utf8Cont b1 && utf8Cont b2 then
          let n := (b - 0xE0) * 4096 + (b1 - 0x80) * 64 + (b2 - 0x80)
          if n < 0x800 ∨ (0xD800 ≤ n ∧ n < 0xE000) then none
          else (utf8DecodeChars t).map (fun cs => Char.ofNat n :: cs)
        else none
      | _ => none
    else if b < 0xF5 then
      match bs with
      | b1 :: b2 :: b3 :: t =>
        if utf8Cont b1 && utf8Cont b2 && utf8Cont b3 then
          let n := (b - 0xF0) * 262144 + (b1 - 0x80) * 4096 + (b2 - 0x80) * 64 + (b3 - 0x80)
          if n < 0x10000 ∨ 0x110000 ≤ n then none
          else (utf8DecodeChars t).map (fun cs => Char.ofNat n :: cs)
        else none
      | _ => none
    else none

/-- Decode a byte list to a Python string (models `bytes.decode("utf-8")`). -/
def pyDecode (bs : List Nat) : Option String :=
  (utf8DecodeChars bs).map (fun cs => String.mk cs)

/-- Bytes of a C string up to (not including) the first null byte: models
the `.value` attribute of a ctypes `c_char_p` or char buffer. -/
def cstrValue (bs : List Nat) : List Nat :=
  bs.takeWhile (fun b => b != 0)

/-- ADSError exception value: carries the numeric code and the message
built by `ADSError.__init__` (pyads.py lines 65-80). -/
structure ADSError where
  err_code : Nat
  msg : String
deriving DecidableEq

/-- Construction of an `ADSError` from a code, given the `ERROR_CODES`
lookup table (imported by the source from `pyads.errorcodes`, here a
parameter): a known code yields the table description followed by the code
in parentheses, an unknown code (`KeyError`) yields the generic unknown
message with the code.  Mirrors `ADSError.__init__`. -/
def mkADSError (errorCodes : Nat → Option String) (err_code : Nat) : ADSError :=
  { err_code := err_code
    msg :=
      match errorCodes err_code with
      | some desc => desc ++ " (" ++ toString err_code ++ ")"
      | none => "Unknown Error (" ++ toString err_code ++ ")" }

/-- Exceptions the module can raise: `ADSError`, the `RuntimeError` of the
platform gate, `TypeError` from ctypes conversions or the NOTEFUNC check,
and `UnicodeDecodeError` from `bytes.decode`. -/
inductive AdsException where
  | ads (e : ADSError)
  | runtime (msg : String)
  | typeError (msg : String)
  | unicodeError
deriving DecidableEq

/-- Modelled from the spec: `AmsAddr` comes from `pyads.structs` (not in
the given source tree); the spec describes it as an immutable value
`\x7b net_id: 6-byte identity, port: u16 \x7d` used purely as a routing key. -/
structure AmsAddr where
  netId : List Nat
  port : Nat
deriving DecidableEq

/-- Modelled from the spec: `NotificationAttrib` comes from `pyads.structs`
(not in the given source tree); the spec describes it as the immutable
record `\x7b transmission_mode, max_delay, cycle_time, length \x7d` passed at
subscribe time. -/
structure NotificationAttrib where
  cbLength : Nat
  nTransMode : Nat
  nMaxDelay : Nat
  nCycleTime : Nat
deriving DecidableEq

/-- Modelled from the spec: `AdsVersion` comes from `pyads.structs` (not in
the given source tree); a version/revision/build triple. -/
structure AdsVersion where
  version : Nat
  revision : Nat
  build : Nat
deriving DecidableEq

/-- PLC data type descriptors as the source distinguishes them: the module
compares against `PLCTYPE_STRING`, special-cases ctypes array types
(`PyCArrayType`), and treats everything else as a simple ctypes value type
of a fixed byte size. -/
inductive PlcType where
  | string
  | simple (size : Nat)
  | carray (elemSize count : Nat)
deriving DecidableEq

/-- PLCTYPE_UDINT is ctypes `c_uint32`: a simple 4-byte type. -/
def PLCTYPE_UDINT : PlcType := PlcType.simple 4

/-- Byte size of the receive object allocated for a read (ctypes `sizeof`);
for the string type this is the `STRING_BUFFER`-sized character buffer the
source allocates. -/
def PlcType.sizeBytes : PlcType → Nat
  | PlcType.string => STRING_BUFFER
  | PlcType.simple n => n
  | PlcType.carray e c => e * c

/-- Python values as the module passes them around: strings, integers and
lists of integers (for array types). -/
inductive PyValue where
  | str (s : String)
  | num (n : Nat)
  | nums (ns : List Nat)
deriving DecidableEq

/-- One DLL call issued against the transport, with the arguments the
source passes to it. -/
inductive Call where
  | readWrite (adr : AmsAddr) (indexGroup indexOffset readLength : Nat)
      (payload : List Nat) (payloadLength : Nat)
  | read (adr : AmsAddr) (indexGroup indexOffset readLength : Nat)
  | write (adr : AmsAddr) (indexGroup indexOffset : Nat)
      (payload : List Nat) (payloadLength : Nat)
  | writeControl (adr : AmsAddr) (adsState deviceState : Nat)
      (payload : List Nat) (payloadLength : Nat)
  | addDeviceNotification (adr : AmsAddr) (indexGroup indexOffset : Nat)
      (attrib : NotificationAttrib) (hUser : Nat)
  | delDeviceNotification (adr : AmsAddr) (hNotification : Nat)
  | portOpen
  | portClose
  | getLocalAddress
  | readState (adr : AmsAddr)
  | readDeviceInfo (adr : AmsAddr)
  | getDllVersion
  | setTimeout (ms : Nat)
deriving DecidableEq

/-- The DLL as a response oracle: for each kind of call, the status code
and output data the device produces. -/
structure Transport where
  readWriteResp : Nat → Nat → Nat → List Nat → Nat → Nat × List Nat
  readResp : Nat → Nat → Nat → Nat × List Nat
  writeResp : Nat → Nat → List Nat → Nat → Nat
  writeControlResp : Nat → Nat → List Nat → Nat → Nat
  addNotifResp : Nat → Nat → NotificationAttrib → Nat → Nat × Nat
  delNotifResp : Nat → Nat
  portOpenResp : Nat
  portCloseResp : Nat
  localAddressResp : Nat × AmsAddr
  readStateResp : Nat × Nat × Nat
  deviceInfoResp : Nat × List Nat × (Nat × Nat × Nat)
  dllVersionResp : Nat
  setTimeoutResp : Nat → Nat

/-- Execution environment: the platform flag (`platform_is_windows()`),
the `ERROR_CODES` table and the DLL oracle. -/
structure Env where
  windows : Bool
  errorCodes : Nat → Option String
  tp : Transport

/-- The process-wide `callback_store` dictionary: notification handle to
optional stored callback (callbacks are identified by an opaque id). -/
abbrev CallbackStore := List (Nat × Option Nat)

/-- Python dict assignment `store[k] = v`. -/
def storeSet (st : CallbackStore) (k : Nat) (v : Option Nat) : CallbackStore :=
  match st with
  | [] => [(k, v)]
  | (k0, v0) :: rest => if k0 = k then (k, v) :: rest else (k0, v0) :: storeSet rest k v

/-- Python dict lookup: `some v` when the key is present with value `v`. -/
def storeLookup (st : CallbackStore) (k : Nat) : Option (Option Nat) :=
  match st with
  | [] => none
  | (k0, v0) :: rest => if k0 = k then some v0 else storeLookup rest k

/-- Result of an operation: the value or raised exception, and the trace of
DLL calls issued. -/
abbrev AdsResult (α : Type) := Except AdsException α × List Call

/-- Result of an operation that also touches the callback store. -/
abbrev AdsResultS (α : Type) := Except AdsException α × List Call × CallbackStore

/-- Message of the platform-gate `RuntimeError`, naming the wrapped
function (from the `win32_only` decorator). -/
def platformMsg (name : String) : String :=
  name ++ " is only supported when using the TcAdsDll (win32)."

/-- The `win32_only` decorator: if the platform is not Windows the wrapped
function raises `RuntimeError` naming itself, without running the body. -/
def win32_only {α : Type} (name : String) (windows : Bool)
    (body : Unit → AdsResult α) : AdsResult α :=
  if windows then body ()
  else (Except.error (AdsException.runtime (platformMsg name)), [])

/-- The `win32_only` decorator for operations that touch the callback
store: the store is left unchanged when the gate raises. -/
def win32_onlyS {α : Type} (name : String) (windows : Bool) (store : CallbackStore)
    (body : Unit → AdsResultS α) : AdsResultS α :=
  if windows then body ()
  else (Except.error (AdsException.runtime (platformMsg name)), [], store)

/-- Payload encoding of `adsSyncWriteReq` (pyads.py lines 277-287): a
string becomes `c_char_p(value.encode())` whose bytes run to the first
embedded null, sent with its null terminator and length `len(bytes)+1`;
an array type is filled element-wise; any other type is a simple ctypes
object of its fixed size.  Mismatched value/type raises `TypeError` as the
ctypes constructor would. -/
def writePayload (value : PyValue) (plcDataType : PlcType) :
    Except AdsException (List Nat × Nat) :=
  if plcDataType = PlcType.string then
    match value with
    | PyValue.str s =>
      let bs := cstrValue (strBytes s)
      Except.ok (bs ++ [0], bs.length + 1)
    | _ => Except.error (AdsException.typeError ("value has no encode method"))
  else
    match plcDataType, value with
    | PlcType.carray e c, PyValue.nums vs =>
      if vs.length = c then Except.ok ((vs.map (toBytesLE e)).flatten, e * c)
      else Except.error (AdsException.typeError ("wrong number of initializers"))
    | PlcType.simple n, PyValue.num v => Except.ok (toBytesLE n v, n)
    | _, _ => Except.error (AdsException.typeError ("incompatible value for plc type"))

/-- Payload encoding of `adsSyncWriteControlReq` (pyads.py lines 243-250):
same string branch as `writePayload`; no array special case. -/
def writeControlPayload (data : PyValue) (plcDataType : PlcType) :
    Except AdsException (List Nat × Nat) :=
  if plcDataType = PlcType.string then
    match data with
    | PyValue.str s =>
      let bs := cstrValue (strBytes s)
      Except.ok (bs ++ [0], bs.length + 1)
    | _ => Except.error (AdsException.typeError ("value has no encode method"))
  else
    match plcDataType, data with
    | PlcType.simple n, PyValue.num v => Except.ok (toBytesLE n v, n)
    | _, _ => Except.error (AdsException.typeError ("incompatible value for plc type"))

/-- Payload encoding of `adsSyncReadWriteReq` (pyads.py lines 323-332): the
string branch declares length `len(value) + 1` counted in characters of
the unicode string, not in encoded bytes; no array special case. -/
def readWritePayload (value : PyValue) (plcWriteDataType : PlcType) :
    Except AdsException (List Nat × Nat) :=
  if plcWriteDataType = PlcType.string then
    match value with
    | PyValue.str s => Except.ok (cstrValue (strBytes s) ++ [0], s.length + 1)
    | _ => Except.error (AdsException.typeError ("value has no encode method"))
  else
    match plcWriteDataType, value with
    | PlcType.simple n, PyValue.num v => Except.ok (toBytesLE n v, n)
    | _, _ => Except.error (AdsException.typeError ("incompatible value for plc type"))

/-- Decoding of a receive buffer after a successful read (the common tail
of `adsSyncReadReq` and `adsSyncReadWriteReq`, pyads.py lines 347-356 and
392-401): a string buffer yields `data.value.decode("utf-8")` (bytes up to
the first null within the buffer), an array type yields the element list,
a simple type yields its integer value.  Bytes beyond the oracle response
read as zero, as the ctypes receive object is zero-initialized. -/
def decodeRead (plcDataType : PlcType) (buf : List Nat) :
    Except AdsException PyValue :=
  match plcDataType with
  | PlcType.string =>
    match pyDecode (cstrValue (buf.take STRING_BUFFER)) with
    | some s => Except.ok (PyValue.str s)
    | none => Except.error AdsException.unicodeError
  | PlcType.carray e c =>
    Except.ok (PyValue.nums ((List.range c).map (fun i => fromBytesLE ((buf.drop (i * e)).take e))))
  | PlcType.simple n => Except.ok (PyValue.num (fromBytesLE (buf.take n)))

/-- Conversion of a Python value to an int as `c_ulong(hnl)` requires
(raises `TypeError` for non-integers). -/
def asHandle : PyValue → Except AdsException Nat
  | PyValue.num n => Except.ok n
  | _ => Except.error (AdsException.typeError ("an integer is required"))

/-- adsGetDllVersion (pyads.py lines 104-117): reads the packed version
long from the DLL and memmoves its 4 bytes into the version struct
(1-byte version, 1-byte revision, 2-byte build, little-endian). -/
def adsGetDllVersion (env : Env) : AdsResult AdsVersion :=
  win32_only ("adsGetDllVersion") env.windows fun _ =>
    let resLong := env.tp.dllVersionResp
    (Except.ok { version := resLong % 256, revision := resLong / 256 % 256,
                 build := resLong / 65536 % 65536 },
     [Call.getDllVersion])

/-- adsPortOpen (pyads.py lines 120-132): returns the port number with no
error check. -/
def adsPortOpen (env : Env) : AdsResult Nat :=
  win32_only ("adsPortOpen") env.windows fun _ =>
    (Except.ok env.tp.portOpenResp, [Call.portOpen])

/-- adsPortClose (pyads.py lines 135-143). -/
def adsPortClose (env : Env) : AdsResult Unit :=
  win32_only ("adsPortClose") env.windows fun _ =>
    let errCode := env.tp.portCloseResp
    if errCode ≠ 0 then
      (Except.error (AdsException.ads (mkADSError env.errorCodes errCode)), [Call.portClose])
    else (Except.ok (), [Call.portClose])

/-- adsGetLocalAddress (pyads.py lines 146-164). -/
def adsGetLocalAddress (env : Env) : AdsResult AmsAddr :=
  win32_only ("adsGetLocalAddress") env.windows fun _ =>
    let r := env.tp.localAddressResp
    if r.1 ≠ 0 then
      (Except.error (AdsException.ads (mkADSError env.errorCodes r.1)), [Call.getLocalAddress])
    else (Except.ok r.2, [Call.getLocalAddress])

/-- adsSyncReadStateReq (pyads.py lines 167-189). -/
def adsSyncReadStateReq (env : Env) (adr : AmsAddr) : AdsResult (Nat × Nat) :=
  win32_only ("adsSyncReadStateReq") env.windows fun _ =>
    let r := env.tp.readStateResp
    if r.1 ≠ 0 then
      (Except.error (AdsException.ads (mkADSError env.errorCodes r.1)), [Call.readState adr])
    else (Except.ok (r.2.1, r.2.2), [Call.readState adr])

/-- adsSyncReadDeviceInfoReq (pyads.py lines 192-213): reads the device
name into a 20-byte buffer and decodes it up to the first null. -/
def adsSyncReadDeviceInfoReq (env : Env) (adr : AmsAddr) : AdsResult (String × AdsVersion) :=
  win32_only ("adsSyncReadDeviceInfoReq") env.windows fun _ =>
    let r := env.tp.deviceInfoResp
    if r.1 ≠ 0 then
      (Except.error (AdsException.ads (mkADSError env.errorCodes r.1)), [Call.readDeviceInfo adr])
    else
      match pyDecode (cstrValue (r.2.1.take 20)) with
      | some devName =>
        (Except.ok (devName, { version := r.2.2.1, revision := r.2.2.2.1, build := r.2.2.2.2 }),
         [Call.readDeviceInfo adr])
      | none => (Except.error AdsException.unicodeError, [Call.readDeviceInfo adr])

/-- adsSyncWriteControlReq (pyads.py lines 216-254). -/
def adsSyncWriteControlReq (env : Env) (adr : AmsAddr) (adsState deviceState : Nat)
    (data : PyValue) (plcDataType : PlcType) : AdsResult Unit :=
  win32_only ("adsSyncWriteControlReq") env.windows fun _ =>
    match writeControlPayload data plcDataType with
    | Except.error e => (Except.error e, [])
    | Except.ok pn =>
      let c := Call.writeControl adr adsState deviceState pn.1 pn.2
      let errCode := env.tp.writeControlResp adsState deviceState pn.1 pn.2
      if errCode ≠ 0 then
        (Except.error (AdsException.ads (mkADSError env.errorCodes errCode)), [c])
      else (Except.ok (), [c])

/-- adsSyncWriteReq (pyads.py lines 257-291). -/
def adsSyncWriteReq (env : Env) (adr : AmsAddr) (indexGroup indexOffset : Nat)
    (value : PyValue) (plcDataType : PlcType) : AdsResult Unit :=
  win32_only ("adsSyncWriteReq") env.windows fun _ =>
    match writePayload value plcDataType with
    | Except.error e => (Except.error e, [])
    | Except.ok pn =>
      let c := Call.write adr indexGroup indexOffset pn.1 pn.2
      let errCode := env.tp.writeResp indexGroup indexOffset pn.1 pn.2
      if errCode ≠ 0 then
        (Except.error (AdsException.ads (mkADSError env.errorCodes errCode)), [c])
      else (Except.ok (), [c])

/-- adsSyncReadWriteReq (pyads.py lines 294-356). -/
def adsSyncReadWriteReq (env : Env) (adr : AmsAddr) (indexGroup indexOffset : Nat)
    (plcReadDataType : PlcType) (value : PyValue) (plcWriteDataType : PlcType) :
    AdsResult PyValue :=
  win32_only ("adsSyncReadWriteReq") env.windows fun _ =>
    let nReadLength := plcReadDataType.sizeBytes
    match readWritePayload value plcWriteDataType with
    | Except.error e => (Except.error e, [])
    | Except.ok pn =>
      let c := Call.readWrite adr indexGroup indexOffset nReadLength pn.1 pn.2
      let r := env.tp.readWriteResp indexGroup indexOffset nReadLength pn.1 pn.2
      if r.1 ≠ 0 then
        (Except.error (AdsException.ads (mkADSError env.errorCodes r.1)), [c])
      else
        match decodeRead plcReadDataType r.2 with
        | Except.ok v => (Except.ok v, [c])
        | Except.error e => (Except.error e, [c])

/-- adsSyncReadReq (pyads.py lines 359-401). -/
def adsSyncReadReq (env : Env) (adr : AmsAddr) (indexGroup indexOffset : Nat)
    (plcDataType : PlcType) : AdsResult PyValue :=
  win32_only ("adsSyncReadReq") env.windows fun _ =>
    let nLength := plcDataType.sizeBytes
    let c := Call.read adr indexGroup indexOffset nLength
    let r := env.tp.readResp indexGroup indexOffset nLength
    if r.1 ≠ 0 then
      (Except.error (AdsException.ads (mkADSError env.errorCodes r.1)), [c])
    else
      match decodeRead plcDataType r.2 with
      | Except.ok v => (Except.ok v, [c])
      | Except.error e => (Except.error e, [c])

/-- adsSyncReadByName (pyads.py lines 404-428): resolve the name to a
handle, read the value via the handle, release the handle.  Each step is a
plain sequential call; an exception from any step propagates immediately,
skipping the remaining steps (there is no try/finally in the source). -/
def adsSyncReadByName (env : Env) (adr : AmsAddr) (dataName : String)
    (plcDataType : PlcType) : AdsResult PyValue :=
  win32_only ("adsSyncReadByName") env.windows fun _ =>
    match adsSyncReadWriteReq env adr ADSIGRP_SYM_HNDBYNAME 0 PLCTYPE_UDINT
        (PyValue.str dataName) PlcType.string with
    | (Except.error e, t1) => (Except.error e, t1)
    | (Except.ok hv, t1) =>
      match asHandle hv with
      | Except.error e => (Except.error e, t1)
      | Except.ok hnl =>
        match adsSyncReadReq env adr ADSIGRP_SYM_VALBYHND hnl plcDataType with
        | (Except.error e, t2) => (Except.error e, t1 ++ t2)
        | (Except.ok value, t2) =>
          match adsSyncWriteReq env adr ADSIGRP_SYM_RELEASEHND 0 (PyValue.num hnl)
              PLCTYPE_UDINT with
          | (Except.error e, t3) => (Except.error e, t1 ++ (t2 ++ t3))
          | (Except.ok _, t3) => (Except.ok value, t1 ++ (t2 ++ t3))

/-- adsSyncWriteByName (pyads.py lines 431-452): resolve, write via the
handle, release; same sequential structure as `adsSyncReadByName`. -/
def adsSyncWriteByName (env : Env) (adr : AmsAddr) (dataName : String)
    (value : PyValue) (plcDataType : PlcType) : AdsResult Unit :=
  win32_only ("adsSyncWriteByName") env.windows fun _ =>
    match adsSyncReadWriteReq env adr ADSIGRP_SYM_HNDBYNAME 0 PLCTYPE_UDINT
        (PyValue.str dataName) PlcType.string with
    | (Except.error e, t1) => (Except.error e, t1)
    | (Except.ok hv, t1) =>
      match asHandle hv with
      | Except.error e => (Except.error e, t1)
      | Except.ok hnl =>
        match adsSyncWriteReq env adr ADSIGRP_SYM_VALBYHND hnl value plcDataType with
        | (Except.error e, t2) => (Except.error e, t1 ++ t2)
        | (Except.ok _, t2) =>
          match adsSyncWriteReq env adr ADSIGRP_SYM_RELEASEHND 0 (PyValue.num hnl)
              PLCTYPE_UDINT with
          | (Except.error e, t3) => (Except.error e, t1 ++ (t2 ++ t3))
          | (Except.ok _, t3) => (Except.ok (), t1 ++ (t2 ++ t3))

/-- NOTEFUNC is `None` exactly when the module was loaded off-Windows
(pyads.py lines 455-459). -/
def NOTEFUNC_isNone (env : Env) : Bool := !env.windows

/-- adsSyncAddDeviceNotificationReq (pyads.py lines 464-523): resolve the
name to a handle; the user handle defaults to the resolved handle; issue
the register call; on success store the callback under the returned
notification handle and return `(notification_handle, hnl)`.  A nonzero
status raises after resolution with no further calls. -/
def adsSyncAddDeviceNotificationReq (env : Env) (adr : AmsAddr) (data_name : String)
    (pNoteAttrib : NotificationAttrib) (callback : Nat) (user_handle : Option Nat)
    (store : CallbackStore) : AdsResultS (Nat × Nat) :=
  win32_onlyS ("adsSyncAddDeviceNotificationReq") env.windows store fun _ =>
    match adsSyncReadWriteReq env adr ADSIGRP_SYM_HNDBYNAME 0 PLCTYPE_UDINT
        (PyValue.str data_name) PlcType.string with
    | (Except.error e, t1) => (Except.error e, t1, store)
    | (Except.ok hv, t1) =>
      match asHandle hv with
      | Except.error e => (Except.error e, t1, store)
      | Except.ok hnl =>
        let nIndexGroup := ADSIGRP_SYM_VALBYHND
        let nIndexOffset := hnl
        let nHUser := match user_handle with
          | none => hnl
          | some u => u
        if NOTEFUNC_isNone env then
          (Except.error (AdsException.typeError ("Callback function type cannot be None")),
           t1, store)
        else
          let c := Call.addDeviceNotification adr nIndexGroup nIndexOffset pNoteAttrib nHUser
          let r := env.tp.addNotifResp nIndexGroup nIndexOffset pNoteAttrib nHUser
          if r.1 ≠ 0 then
            (Except.error (AdsException.ads (mkADSError env.errorCodes r.1)), t1 ++ [c], store)
          else
            (Except.ok (r.2, hnl), t1 ++ [c], storeSet store r.2 (some callback))

/-- adsSyncDelDeviceNotificationReq (pyads.py lines 526-545): issue the
deregister call, clear the registry slot, raise on nonzero status, and
only then release the user handle via a release-handle write. -/
def adsSyncDelDeviceNotificationReq (env : Env) (adr : AmsAddr)
    (notification_handle user_handle : Nat) (store : CallbackStore) : AdsResultS Unit :=
  win32_onlyS ("adsSyncDelDeviceNotificationReq") env.windows store fun _ =>
    let c := Call.delDeviceNotification adr notification_handle
    let err_code := env.tp.delNotifResp notification_handle
    let store1 := storeSet store notification_handle none
    if err_code ≠ 0 then
      (Except.error (AdsException.ads (mkADSError env.errorCodes err_code)), [c], store1)
    else
      match adsSyncWriteReq env adr ADSIGRP_SYM_RELEASEHND 0 (PyValue.num user_handle)
          PLCTYPE_UDINT with
      | (Except.error e, t2) => (Except.error e, c :: t2, store1)
      | (Except.ok _, t2) => (Except.ok (), c :: t2, store1)

/-- adsSyncSetTimeout (pyads.py lines 548-560). -/
def adsSyncSetTimeout (env : Env) (nMs : Nat) : AdsResult Unit :=
  win32_only ("adsSyncSetTimeout") env.windows fun _ =>
    let err_code := env.tp.setTimeoutResp nMs
    if err_code ≠ 0 then
      (Except.error (AdsException.ads (mkADSError env.errorCodes err_code)), [Call.setTimeout nMs])
    else (Except.ok (), [Call.setTimeout nMs])

/-- Whether a DLL call is a handle-release request: a write to the
reserved release-handle index group. -/
def isReleaseCall : Call → Bool
  | Call.write _ g _ _ _ => g == ADSIGRP_SYM_RELEASEHND
  | _ => false

/-- Number of handle-release requests in a trace. -/
def countRelease (t : List Call) : Nat :=
  (t.filter isReleaseCall).length

/-- An example address used in the concrete instantiations. -/
def someAddr : AmsAddr := { netId := [127, 0, 0, 1, 1, 1], port := 801 }

/-- An example notification attribute record. -/
def attrib0 : NotificationAttrib :=
  { cbLength := 4, nTransMode := 4, nMaxDelay := 0, nCycleTime := 0 }

/-- A device that answers every request with status 0; name resolution
returns handle 1001. -/
def zeroTransport : Transport :=
  { readWriteResp := fun _ _ _ _ _ => (0, toBytesLE 4 1001)
    readResp := fun _ _ _ => (0, [])
    writeResp := fun _ _ _ _ => 0
    writeControlResp := fun _ _ _ _ => 0
    addNotifResp := fun _ _ _ _ => (0, 7)
    delNotifResp := fun _ => 0
    portOpenResp := 0
    portCloseResp := 0
    localAddressResp := (0, { netId := [0, 0, 0, 0, 0, 0], port := 0 })
    readStateResp := (0, 0, 0)
    deviceInfoResp := (0, [], (0, 0, 0))
    dllVersionResp := 0
    setTimeoutResp := fun _ => 0 }

/-- Windows environment over the all-success device, with an empty error
code table. -/
def envOk : Env := { windows := true, errorCodes := fun _ => none, tp := zeroTransport }

/-- Device where name resolution succeeds (handle 1001) but every plain
read fails with status 1. -/
def envReadFails : Env :=
  { windows := true, errorCodes := fun _ => none
    tp := { zeroTransport with readResp := fun _ _ _ => (1, []) } }

/-- Device where name resolution succeeds (handle 1001) but notification
registration fails with status 1793. -/
def envAddFails : Env :=
  { windows := true, errorCodes := fun _ => none
    tp := { zeroTransport with addNotifResp := fun _ _ _ _ => (1793, 0) } }

/-- Device where notification deregistration fails with status 5. -/
def envDelFails : Env :=
  { windows := true, errorCodes := fun _ => none
    tp := { zeroTransport with delNotifResp := fun _ => 5 } }

/-- Non-Windows environment (the platform gate fires). -/
def envOff : Env := { windows := false, errorCodes := fun _ => none, tp := zeroTransport }

theorem countRelease_append (a b : List Call) :
    countRelease (a ++ b) = countRelease a + countRelease b := by
  simp [countRelease, List.filter_append]

theorem storeLookup_storeSet (st : CallbackStore) (k : Nat) (v : Option Nat) :
    storeLookup (storeSet st k v) k = some v := by
  induction st with
  | nil => simp [storeSet, storeLookup]
  | cons hd tl ih =>
    by_cases h : hd.1 = k
    · simp [storeSet, storeLookup, h]
    · simp [storeSet, storeLookup, h, ih]

theorem writePayload_udint (v : Nat) :
    writePayload (PyValue.num v) PLCTYPE_UDINT = Except.ok (toBytesLE 4 v, 4) := rfl

theorem decodeRead_udint (buf : List Nat) :
    decodeRead PLCTYPE_UDINT buf = Except.ok (PyValue.num (fromBytesLE (buf.take 4))) := rfl

theorem readWritePayload_str (s : String) :
    readWritePayload (PyValue.str s) PlcType.string =
      Except.ok (cstrValue (strBytes s) ++ [0], s.length + 1) := rfl

theorem adsSyncWriteReq_udint (env : Env) (adr : AmsAddr) (g o v : Nat)
    (hw : env.windows = true) :
    adsSyncWriteReq env adr g o (PyValue.num v) PLCTYPE_UDINT =
      (if env.tp.writeResp g o (toBytesLE 4 v) 4 ≠ 0 then
        Except.error (AdsException.ads (mkADSError env.errorCodes (env.tp.writeResp g o (toBytesLE 4 v) 4)))
       else Except.ok (),
       [Call.write adr g o (toBytesLE 4 v) 4]) := by
  simp only [adsSyncWriteReq, win32_only, hw, if_true, writePayload_udint]
  split <;> simp_all

theorem adsSyncReadWriteReq_str_udint (env : Env) (adr : AmsAddr) (g o : Nat) (s : String)
    (hw : env.windows = true) :
    adsSyncReadWriteReq env adr g o PLCTYPE_UDINT (PyValue.str s) PlcType.string =
      (if (env.tp.readWriteResp g o 4 (cstrValue (strBytes s) ++ [0]) (s.length + 1)).1 ≠ 0 then
         Except.error (AdsException.ads (mkADSError env.errorCodes
           (env.tp.readWriteResp g o 4 (cstrValue (strBytes s) ++ [0]) (s.length + 1)).1))
       else Except.ok (PyValue.num (fromBytesLE
         ((env.tp.readWriteResp g o 4 (cstrValue (strBytes s) ++ [0]) (s.length + 1)).2.take 4))),
       [Call.readWrite adr g o 4 (cstrValue (strBytes s) ++ [0]) (s.length + 1)]) := by
  simp only [adsSyncReadWriteReq, win32_only, hw, if_true, readWritePayload_str,
    PlcType.sizeBytes, PLCTYPE_UDINT, decodeRead]
  split <;> simp_all

theorem adsSyncReadReq_eq (env : Env) (adr : AmsAddr) (g o : Nat) (ty : PlcType)
    (hw : env.windows = true) :
    adsSyncReadReq env adr g o ty =
      (if (env.tp.readResp g o ty.sizeBytes).1 ≠ 0 then
         Except.error (AdsException.ads (mkADSError env.errorCodes (env.tp.readResp g o ty.sizeBytes).1))
       else decodeRead ty (env.tp.readResp g o ty.sizeBytes).2,
       [Call.read adr g o ty.sizeBytes]) := by
  simp only [adsSyncReadReq, win32_only, hw, if_true]
  split
  · simp
  · cases hd : decodeRead ty (env.tp.readResp g o ty.sizeBytes).2 <;> simp [hd]

/-- C1 (amended): in `adsSyncReadByName` and `adsSyncWriteByName` the
release-handle request is issued exactly once with the resolved handle
only when the read (respectively write) step succeeds; when that step
fails after the handle was resolved, the original error propagates with
no release request issued at all (the handle leaks device-side), because
the source performs the three steps sequentially with no try/finally. -/
theorem byName_release_only_on_success
    (env : Env) (adr : AmsAddr) (dataName : String) (plcDataType : PlcType)
    (hBytes : List Nat) (wval : PyValue)
    (hw : env.windows = true)
    (hres : env.tp.readWriteResp ADSIGRP_SYM_HNDBYNAME 0 4
      (cstrValue (strBytes dataName) ++ [0]) (dataName.length + 1) = (0, hBytes)) :
    ((env.tp.readResp ADSIGRP_SYM_VALBYHND (fromBytesLE (hBytes.take 4)) plcDataType.sizeBytes).1 ≠ 0 →
      (adsSyncReadByName env adr dataName plcDataType).1 =
        Except.error (AdsException.ads (mkADSError env.errorCodes
          (env.tp.readResp ADSIGRP_SYM_VALBYHND (fromBytesLE (hBytes.take 4)) plcDataType.sizeBytes).1)) ∧
      countRelease (adsSyncReadByName env adr dataName plcDataType).2 = 0) ∧
    (∀ v : PyValue,
      (env.tp.readResp ADSIGRP_SYM_VALBYHND (fromBytesLE (hBytes.take 4)) plcDataType.sizeBytes).1 = 0 →
      decodeRead plcDataType
        (env.tp.readResp ADSIGRP_SYM_VALBYHND (fromBytesLE (hBytes.take 4)) plcDataType.sizeBytes).2 =
        Except.ok v →
      countRelease (adsSyncReadByName env adr dataName plcDataType).2 = 1 ∧
      Call.write adr ADSIGRP_SYM_RELEASEHND 0 (toBytesLE 4 (fromBytesLE (hBytes.take 4))) 4 ∈
        (adsSyncReadByName env adr dataName plcDataType).2) ∧
    (∀ p : List Nat, ∀ n : Nat, writePayload wval plcDataType = Except.ok (p, n) →
      (env.tp.writeResp ADSIGRP_SYM_VALBYHND (fromBytesLE (hBytes.take 4)) p n ≠ 0 →
        (adsSyncWriteByName env adr dataName wval plcDataType).1 =
          Except.error (AdsException.ads (mkADSError env.errorCodes
            (env.tp.writeResp ADSIGRP_SYM_VALBYHND (fromBytesLE (hBytes.take 4)) p n))) ∧
        countRelease (adsSyncWriteByName env adr dataName wval plcDataType).2 = 0) ∧
      (env.tp.writeResp ADSIGRP_SYM_VALBYHND (fromBytesLE (hBytes.take 4)) p n = 0 →
        countRelease (adsSyncWriteByName env adr dataName wval plcDataType).2 = 1 ∧
        Call.write adr ADSIGRP_SYM_RELEASEHND 0 (toBytesLE 4 (fromBytesLE (hBytes.take 4))) 4 ∈
          (adsSyncWriteByName env adr dataName wval plcDataType).2)) := by
  have h1 := adsSyncReadWriteReq_str_udint env adr ADSIGRP_SYM_HNDBYNAME 0 dataName hw
  rw [hres] at h1
  simp only [ne_eq, not_true_eq_false, if_false, reduceIte] at h1
  refine ⟨?_, ?_, ?_⟩
  · intro hst
    unfold adsSyncReadByName
    simp only [win32_only, hw, if_true, h1, asHandle]
    rw [adsSyncReadReq_eq env adr _ _ plcDataType hw]
    simp only [hst, ne_eq, not_false_eq_true, if_true, reduceIte]
    constructor
    · simp
    · simp [countRelease, isReleaseCall, ADSIGRP_SYM_HNDBYNAME, ADSIGRP_SYM_RELEASEHND]
  · intro v hst hdec
    unfold adsSyncReadByName
    simp only [win32_only, hw, if_true, h1, asHandle]
    rw [adsSyncReadReq_eq env adr _ _ plcDataType hw]
    simp only [hst, ne_eq, not_true_eq_false, if_false, reduceIte, hdec]
    rw [adsSyncWriteReq_udint env adr ADSIGRP_SYM_RELEASEHND 0 (fromBytesLE (hBytes.take 4)) hw]
    by_cases hrel : env.tp.writeResp ADSIGRP_SYM_RELEASEHND 0 (toBytesLE 4 (fromBytesLE (hBytes.take 4))) 4 = 0
    · rw [if_neg (by simp [hrel])]
      simp [countRelease, isReleaseCall, ADSIGRP_SYM_HNDBYNAME, ADSIGRP_SYM_RELEASEHND,
        ADSIGRP_SYM_VALBYHND]
    · rw [if_pos hrel]
      simp [countRelease, isReleaseCall, ADSIGRP_SYM_HNDBYNAME, ADSIGRP_SYM_RELEASEHND,
        ADSIGRP_SYM_VALBYHND]
  · intro p n hwp
    have h2 : adsSyncWriteReq env adr ADSIGRP_SYM_VALBYHND (fromBytesLE (hBytes.take 4)) wval plcDataType =
        (if env.tp.writeResp ADSIGRP_SYM_VALBYHND (fromBytesLE (hBytes.take 4)) p n ≠ 0 then
          Except.error (AdsException.ads (mkADSError env.errorCodes
            (env.tp.writeResp ADSIGRP_SYM_VALBYHND (fromBytesLE (hBytes.take 4)) p n)))
         else Except.ok (),
         [Call.write adr ADSIGRP_SYM_VALBYHND (fromBytesLE (hBytes.take 4)) p n]) := by
      simp only [adsSyncWriteReq, win32_only, hw, if_true, hwp]
      split <;> simp_all
    constructor
    · intro hst
      unfold adsSyncWriteByName
      simp only [win32_only, hw, if_true, h1, asHandle]
      rw [h2]
      simp only [hst, ne_eq, not_false_eq_true, if_true, reduceIte]
      constructor
      · simp
      · simp [countRelease, isReleaseCall, ADSIGRP_SYM_HNDBYNAME, ADSIGRP_SYM_RELEASEHND,
          ADSIGRP_SYM_VALBYHND]
    · intro hst
      unfold adsSyncWriteByName
      simp only [win32_only, hw, if_true, h1, asHandle]
      rw [h2]
      simp only [hst, ne_eq, not_true_eq_false, if_false, reduceIte]
      rw [adsSyncWriteReq_udint env adr ADSIGRP_SYM_RELEASEHND 0 (fromBytesLE (hBytes.take 4)) hw]
      by_cases hrel : env.tp.writeResp ADSIGRP_SYM_RELEASEHND 0 (toBytesLE 4 (fromBytesLE (hBytes.take 4))) 4 = 0
      · rw [if_neg (by simp [hrel])]
        simp [countRelease, isReleaseCall, ADSIGRP_SYM_HNDBYNAME, ADSIGRP_SYM_RELEASEHND,
          ADSIGRP_SYM_VALBYHND]
      · rw [if_pos hrel]
        simp [countRelease, isReleaseCall, ADSIGRP_SYM_HNDBYNAME, ADSIGRP_SYM_RELEASEHND,
          ADSIGRP_SYM_VALBYHND]

/-- C1 (counterexample): against the device `envReadFails`, name
resolution succeeds with handle 1001 and the read step then fails with
status 1; `adsSyncReadByName` propagates the error but the trace contains
zero release-handle requests, refuting the claim that the release is
still issued exactly once before the error propagates. -/
theorem byName_claim_counterexample :
    (adsSyncReadByName envReadFails someAddr ("MAIN.bVar") PLCTYPE_UDINT).1 =
      Except.error (AdsException.ads { err_code := 1, msg := "Unknown Error (1)" }) ∧
    countRelease (adsSyncReadByName envReadFails someAddr ("MAIN.bVar") PLCTYPE_UDINT).2 = 0 := by
  exact ⟨rfl, rfl⟩

/-- C1 (witness): the amended theorem applied to the concrete device
`envReadFails`, whose read step fails with status 1. -/
theorem byName_release_only_on_success_witness :
    (adsSyncReadByName envReadFails someAddr ("MAIN.bVar") PLCTYPE_UDINT).1 =
      Except.error (AdsException.ads (mkADSError envReadFails.errorCodes 1)) ∧
    countRelease (adsSyncReadByName envReadFails someAddr ("MAIN.bVar") PLCTYPE_UDINT).2 = 0 := by
  have h := byName_release_only_on_success envReadFails someAddr ("MAIN.bVar") PLCTYPE_UDINT
    (toBytesLE 4 1001) (PyValue.num 0) rfl rfl
  exact h.1 (by decide)

/-- C2 (amended): when the device-notification registration step of
`adsSyncAddDeviceNotificationReq` fails after the symbolic name was
resolved, the registration error propagates to the caller with no
release-handle request issued (the resolved handle is not released; it
leaks device-side) and the callback store unchanged. -/
theorem addNotification_no_release_on_failure
    (env : Env) (adr : AmsAddr) (data_name : String) (attrib : NotificationAttrib)
    (cb : Nat) (user_handle : Option Nat) (store : CallbackStore) (hBytes : List Nat)
    (hw : env.windows = true)
    (hres : env.tp.readWriteResp ADSIGRP_SYM_HNDBYNAME 0 4
      (cstrValue (strBytes data_name) ++ [0]) (data_name.length + 1) = (0, hBytes)) :
    (env.tp.addNotifResp ADSIGRP_SYM_VALBYHND (fromBytesLE (hBytes.take 4)) attrib
        (user_handle.getD (fromBytesLE (hBytes.take 4)))).1 ≠ 0 →
    (adsSyncAddDeviceNotificationReq env adr data_name attrib cb user_handle store).1 =
      Except.error (AdsException.ads (mkADSError env.errorCodes
        (env.tp.addNotifResp ADSIGRP_SYM_VALBYHND (fromBytesLE (hBytes.take 4)) attrib
          (user_handle.getD (fromBytesLE (hBytes.take 4)))).1)) ∧
    countRelease (adsSyncAddDeviceNotificationReq env adr data_name attrib cb user_handle store).2.1 = 0 ∧
    (adsSyncAddDeviceNotificationReq env adr data_name attrib cb user_handle store).2.2 = store := by
  intro hst
  have h1 := adsSyncReadWriteReq_str_udint env adr ADSIGRP_SYM_HNDBYNAME 0 data_name hw
  rw [hres] at h1
  simp only [ne_eq, not_true_eq_false, if_false, reduceIte] at h1
  unfold adsSyncAddDeviceNotificationReq
  simp only [win32_onlyS, hw, if_true, h1, asHandle, NOTEFUNC_isNone, Bool.not_true,
    Bool.false_eq_true, if_false, reduceIte]
  cases user_handle with
  | none =>
    simp only [Option.getD] at hst
    rw [if_pos hst]
    refine ⟨rfl, ?_, rfl⟩
    simp [countRelease, isReleaseCall]
  | some u =>
    simp only [Option.getD] at hst
    rw [if_pos hst]
    refine ⟨rfl, ?_, rfl⟩
    simp [countRelease, isReleaseCall]

/-- C2 (counterexample): against `envAddFails` the name resolves to
handle 1001 and the registration call fails with status 1793;
`adsSyncAddDeviceNotificationReq` propagates the error, yet the trace
contains zero release-handle requests and the callback store is
untouched, refuting the claim that the resolved handle is released
before the error propagates. -/
theorem addNotification_claim_counterexample :
    (adsSyncAddDeviceNotificationReq envAddFails someAddr ("MAIN.x") attrib0 42 none []).1 =
      Except.error (AdsException.ads { err_code := 1793, msg := "Unknown Error (1793)" }) ∧
    countRelease (adsSyncAddDeviceNotificationReq envAddFails someAddr ("MAIN.x") attrib0 42 none []).2.1 = 0 ∧
    (adsSyncAddDeviceNotificationReq envAddFails someAddr ("MAIN.x") attrib0 42 none []).2.2 = [] := by
  exact ⟨rfl, rfl, rfl⟩

/-- C2 (witness): the amended theorem applied to the concrete device
`envAddFails`, whose registration step fails with status 1793. -/
theorem addNotification_no_release_on_failure_witness :
    (adsSyncAddDeviceNotificationReq envAddFails someAddr ("MAIN.y") attrib0 42 none []).1 =
      Except.error (AdsException.ads (mkADSError envAddFails.errorCodes 1793)) ∧
    countRelease (adsSyncAddDeviceNotificationReq envAddFails someAddr ("MAIN.y") attrib0 42 none []).2.1 = 0 ∧
    (adsSyncAddDeviceNotificationReq envAddFails someAddr ("MAIN.y") attrib0 42 none []).2.2 = [] := by
  exact addNotification_no_release_on_failure envAddFails someAddr ("MAIN.y") attrib0 42 none []
    (toBytesLE 4 1001) rfl rfl (by decide)

/-- C3 (amended): in `adsSyncDelDeviceNotificationReq` the release-handle
write is issued (exactly once, with the user handle) only when the
deregister call returns status zero; on a nonzero deregister status the
deregister error propagates with no release request issued at all,
although the registry entry is still cleared. -/
theorem delNotification_release_only_on_deregister_success
    (env : Env) (adr : AmsAddr) (nh uh : Nat) (store : CallbackStore)
    (hw : env.windows = true) :
    (env.tp.delNotifResp nh ≠ 0 →
      adsSyncDelDeviceNotificationReq env adr nh uh store =
        (Except.error (AdsException.ads (mkADSError env.errorCodes (env.tp.delNotifResp nh))),
         [Call.delDeviceNotification adr nh], storeSet store nh none) ∧
      countRelease (adsSyncDelDeviceNotificationReq env adr nh uh store).2.1 = 0) ∧
    (env.tp.delNotifResp nh = 0 →
      countRelease (adsSyncDelDeviceNotificationReq env adr nh uh store).2.1 = 1 ∧
      Call.write adr ADSIGRP_SYM_RELEASEHND 0 (toBytesLE 4 uh) 4 ∈
        (adsSyncDelDeviceNotificationReq env adr nh uh store).2.1) := by
  unfold adsSyncDelDeviceNotificationReq
  simp only [win32_onlyS, hw, if_true]
  constructor
  · intro hst
    rw [if_pos hst]
    exact ⟨rfl, by simp [countRelease, isReleaseCall]⟩
  · intro hst
    rw [if_neg (by simp [hst])]
    rw [adsSyncWriteReq_udint env adr ADSIGRP_SYM_RELEASEHND 0 uh hw]
    by_cases hrel : env.tp.writeResp ADSIGRP_SYM_RELEASEHND 0 (toBytesLE 4 uh) 4 = 0
    · rw [if_neg (by simp [hrel])]
      simp [countRelease, isReleaseCall]
    · rw [if_pos hrel]
      simp [countRelease, isReleaseCall]

/-- C3 (counterexample): against `envDelFails` the deregister call fails
with status 5; `adsSyncDelDeviceNotificationReq` raises that error and the
trace contains zero release-handle requests, refuting the claim that the
handle is released even when the deregister step returns nonzero. -/
theorem delNotification_claim_counterexample :
    (adsSyncDelDeviceNotificationReq envDelFails someAddr 7 1001 [(7, some 42)]).1 =
      Except.error (AdsException.ads { err_code := 5, msg := "Unknown Error (5)" }) ∧
    countRelease (adsSyncDelDeviceNotificationReq envDelFails someAddr 7 1001 [(7, some 42)]).2.1 = 0 := by
  exact ⟨rfl, rfl⟩

/-- C3 (witness): the amended theorem applied to `envDelFails` (nonzero
deregister status) and to `envOk` (zero status, release issued). -/
theorem delNotification_release_only_on_deregister_success_witness :
    (adsSyncDelDeviceNotificationReq envDelFails someAddr 8 1001 []).1 =
      Except.error (AdsException.ads (mkADSError envDelFails.errorCodes 5)) ∧
    countRelease (adsSyncDelDeviceNotificationReq envDelFails someAddr 8 1001 []).2.1 = 0 ∧
    countRelease (adsSyncDelDeviceNotificationReq envOk someAddr 8 1001 []).2.1 = 1 := by
  have h1 := delNotification_release_only_on_deregister_success envDelFails someAddr 8 1001 [] rfl
  have h2 := delNotification_release_only_on_deregister_success envOk someAddr 8 1001 [] rfl
  have h3 := h1.1 (by decide)
  refine ⟨?_, h3.2, (h2.2 rfl).1⟩
  rw [h3.1]
  rfl

/-- C4: `adsSyncDelDeviceNotificationReq` clears the callback registry
slot for the given notification handle (the stored callback is replaced
by `None`) on every path through the body: whether the deregister call
returns zero or nonzero, and whatever the release write then does,
because the source assigns `callback_store[notification_handle] = None`
before checking the deregister status. -/
theorem delNotification_clears_registry
    (env : Env) (adr : AmsAddr) (nh uh : Nat) (store : CallbackStore)
    (hw : env.windows = true) :
    storeLookup (adsSyncDelDeviceNotificationReq env adr nh uh store).2.2 nh = some none := by
  unfold adsSyncDelDeviceNotificationReq
  simp only [win32_onlyS, hw, if_true]
  by_cases hst : env.tp.delNotifResp nh = 0
  · rw [if_neg (by simp [hst])]
    rw [adsSyncWriteReq_udint env adr ADSIGRP_SYM_RELEASEHND 0 uh hw]
    by_cases hrel : env.tp.writeResp ADSIGRP_SYM_RELEASEHND 0 (toBytesLE 4 uh) 4 = 0
    · rw [if_neg (by simp [hrel])]
      exact storeLookup_storeSet store nh none
    · rw [if_pos hrel]
      exact storeLookup_storeSet store nh none
  · rw [if_pos hst]
    exact storeLookup_storeSet store nh none

/-- C4 (witness): the registry-clearing theorem applied both to a device
whose deregister succeeds and to one where it fails with status 5. -/
theorem delNotification_clears_registry_witness :
    storeLookup (adsSyncDelDeviceNotificationReq envOk someAddr 7 1001 [(7, some 42)]).2.2 7 =
      some none ∧
    storeLookup (adsSyncDelDeviceNotificationReq envDelFails someAddr 7 1001 [(7, some 42)]).2.2 7 =
      some none := by
  exact ⟨delNotification_clears_registry envOk someAddr 7 1001 [(7, some 42)] rfl,
    delNotification_clears_registry envDelFails someAddr 7 1001 [(7, some 42)] rfl⟩

/-- C10: on a successful subscribe with no caller-supplied user handle,
the user handle registered with the device equals the resolved symbolic
handle, and the returned pair is (notification handle, resolved handle);
moreover `adsSyncDelDeviceNotificationReq` issues its release-handle
write with exactly its user-handle argument, so passing the returned
second component there releases precisely the resolved handle. -/
theorem addNotification_success_pairs
    (env : Env) (adr : AmsAddr) (data_name : String) (attrib : NotificationAttrib)
    (cb : Nat) (store : CallbackStore) (hBytes : List Nat)
    (hw : env.windows = true)
    (hres : env.tp.readWriteResp ADSIGRP_SYM_HNDBYNAME 0 4
      (cstrValue (strBytes data_name) ++ [0]) (data_name.length + 1) = (0, hBytes)) :
    ((env.tp.addNotifResp ADSIGRP_SYM_VALBYHND (fromBytesLE (hBytes.take 4)) attrib
        (fromBytesLE (hBytes.take 4))).1 = 0 →
      adsSyncAddDeviceNotificationReq env adr data_name attrib cb none store =
        (Except.ok ((env.tp.addNotifResp ADSIGRP_SYM_VALBYHND (fromBytesLE (hBytes.take 4)) attrib
            (fromBytesLE (hBytes.take 4))).2, fromBytesLE (hBytes.take 4)),
         [Call.readWrite adr ADSIGRP_SYM_HNDBYNAME 0 4
            (cstrValue (strBytes data_name) ++ [0]) (data_name.length + 1),
          Call.addDeviceNotification adr ADSIGRP_SYM_VALBYHND (fromBytesLE (hBytes.take 4)) attrib
            (fromBytesLE (hBytes.take 4))],
         storeSet store (env.tp.addNotifResp ADSIGRP_SYM_VALBYHND (fromBytesLE (hBytes.take 4)) attrib
            (fromBytesLE (hBytes.take 4))).2 (some cb))) ∧
    (∀ nh uh : Nat, env.tp.delNotifResp nh = 0 →
      Call.write adr ADSIGRP_SYM_RELEASEHND 0 (toBytesLE 4 uh) 4 ∈
        (adsSyncDelDeviceNotificationReq env adr nh uh store).2.1) := by
  have h1 := adsSyncReadWriteReq_str_udint env adr ADSIGRP_SYM_HNDBYNAME 0 data_name hw
  rw [hres] at h1
  simp only [ne_eq, not_true_eq_false, if_false, reduceIte] at h1
  constructor
  · intro hst
    unfold adsSyncAddDeviceNotificationReq
    simp only [win32_onlyS, hw, if_true, h1, asHandle, NOTEFUNC_isNone, Bool.not_true,
      Bool.false_eq_true, if_false, reduceIte]
    rw [if_neg (by simp [hst])]
    simp
  · intro nh uh hst
    unfold adsSyncDelDeviceNotificationReq
    simp only [win32_onlyS, hw, if_true]
    rw [if_neg (by simp [hst])]
    rw [adsSyncWriteReq_udint env adr ADSIGRP_SYM_RELEASEHND 0 uh hw]
    by_cases hrel : env.tp.writeResp ADSIGRP_SYM_RELEASEHND 0 (toBytesLE 4 uh) 4 = 0
    · rw [if_neg (by simp [hrel])]
      simp
    · rw [if_pos hrel]
      simp

/-- C10 (witness): the subscribe theorem applied to `envOk`, where the
name resolves to handle 1001 and registration returns notification
handle 7: the result pair is (7, 1001), the user handle registered with
the device is 1001, and the later unsubscribe with user handle 1001
issues the release write for 1001. -/
theorem addNotification_success_pairs_witness :
    adsSyncAddDeviceNotificationReq envOk someAddr ("MAIN.x") attrib0 42 none [] =
      (Except.ok (7, 1001),
       [Call.readWrite someAddr ADSIGRP_SYM_HNDBYNAME 0 4 [77, 65, 73, 78, 46, 120, 0] 7,
        Call.addDeviceNotification someAddr ADSIGRP_SYM_VALBYHND 1001 attrib0 1001],
       [(7, some 42)]) ∧
    Call.write someAddr ADSIGRP_SYM_RELEASEHND 0 (toBytesLE 4 1001) 4 ∈
      (adsSyncDelDeviceNotificationReq envOk someAddr 7 1001 []).2.1 := by
  have h := addNotification_success_pairs envOk someAddr ("MAIN.x") attrib0 42 []
    (toBytesLE 4 1001) rfl rfl
  exact ⟨h.1 rfl, h.2 7 1001 rfl⟩

theorem decodeRead_error_unicode (ty : PlcType) (buf : List Nat) (e : AdsException)
    (h : decodeRead ty buf = Except.error e) : e = AdsException.unicodeError := by
  unfold decodeRead at h
  cases ty with
  | string =>
    cases hp : pyDecode (cstrValue (buf.take STRING_BUFFER)) <;> simp [hp] at h
    exact h.symm
  | simple n => simp at h
  | carray a b => simp at h

/-- C5: every request-layer operation (adsSyncReadReq, adsSyncWriteReq,
adsSyncReadWriteReq, adsSyncWriteControlReq) raises an ADSError carrying
exactly the transport status code if and only if that status is nonzero,
and returns successfully only when the status is zero (for the reading
operations, a zero status may still end in a decode error, never in an
ADSError). -/
theorem requestLayer_status_mapping
    (env : Env) (adr : AmsAddr) (g o a d : Nat) (ty rt wt : PlcType) (v : PyValue)
    (hw : env.windows = true) :
    (((env.tp.readResp g o ty.sizeBytes).1 ≠ 0 →
       (adsSyncReadReq env adr g o ty).1 =
         Except.error (AdsException.ads (mkADSError env.errorCodes (env.tp.readResp g o ty.sizeBytes).1))) ∧
     (∀ e : ADSError, (adsSyncReadReq env adr g o ty).1 = Except.error (AdsException.ads e) →
       e = mkADSError env.errorCodes (env.tp.readResp g o ty.sizeBytes).1 ∧
       (env.tp.readResp g o ty.sizeBytes).1 ≠ 0) ∧
     (∀ r : PyValue, (adsSyncReadReq env adr g o ty).1 = Except.ok r →
       (env.tp.readResp g o ty.sizeBytes).1 = 0)) ∧
    (∀ p : List Nat, ∀ n : Nat, writePayload v ty = Except.ok (p, n) →
      (env.tp.writeResp g o p n ≠ 0 →
        (adsSyncWriteReq env adr g o v ty).1 =
          Except.error (AdsException.ads (mkADSError env.errorCodes (env.tp.writeResp g o p n)))) ∧
      (env.tp.writeResp g o p n = 0 → (adsSyncWriteReq env adr g o v ty).1 = Except.ok ())) ∧
    (∀ p : List Nat, ∀ n : Nat, readWritePayload v wt = Except.ok (p, n) →
      ((env.tp.readWriteResp g o rt.sizeBytes p n).1 ≠ 0 →
        (adsSyncReadWriteReq env adr g o rt v wt).1 =
          Except.error (AdsException.ads (mkADSError env.errorCodes
            (env.tp.readWriteResp g o rt.sizeBytes p n).1))) ∧
      (∀ e : ADSError, (adsSyncReadWriteReq env adr g o rt v wt).1 = Except.error (AdsException.ads e) →
        e = mkADSError env.errorCodes (env.tp.readWriteResp g o rt.sizeBytes p n).1 ∧
        (env.tp.readWriteResp g o rt.sizeBytes p n).1 ≠ 0) ∧
      (∀ r : PyValue, (adsSyncReadWriteReq env adr g o rt v wt).1 = Except.ok r →
        (env.tp.readWriteResp g o rt.sizeBytes p n).1 = 0)) ∧
    (∀ p : List Nat, ∀ n : Nat, writeControlPayload v ty = Except.ok (p, n) →
      (env.tp.writeControlResp a d p n ≠ 0 →
        (adsSyncWriteControlReq env adr a d v ty).1 =
          Except.error (AdsException.ads (mkADSError env.errorCodes (env.tp.writeControlResp a d p n)))) ∧
      (env.tp.writeControlResp a d p n = 0 →
        (adsSyncWriteControlReq env adr a d v ty).1 = Except.ok ())) := by
  refine ⟨?_, ?_, ?_, ?_⟩
  · rw [adsSyncReadReq_eq env adr g o ty hw]
    by_cases hst : (env.tp.readResp g o ty.sizeBytes).1 = 0
    · rw [if_neg (by simp [hst])]
      refine ⟨fun h => absurd hst h, ?_, fun r _ => hst⟩
      intro e he
      have h4 := decodeRead_error_unicode ty _ _ he
      simp at h4
    · rw [if_pos hst]
      refine ⟨fun _ => rfl, ?_, ?_⟩
      · intro e he
        simp only [Except.error.injEq, AdsException.ads.injEq] at he
        exact ⟨he.symm, hst⟩
      · intro r hr
        simp at hr
  · intro p n hwp
    have h2 : (adsSyncWriteReq env adr g o v ty).1 =
        (if env.tp.writeResp g o p n ≠ 0 then
          Except.error (AdsException.ads (mkADSError env.errorCodes (env.tp.writeResp g o p n)))
         else Except.ok ()) := by
      simp only [adsSyncWriteReq, win32_only, hw, if_true, hwp]
      split <;> simp_all
    rw [h2]
    by_cases hst : env.tp.writeResp g o p n = 0
    · rw [if_neg (by simp [hst])]
      exact ⟨fun h => absurd hst h, fun _ => rfl⟩
    · rw [if_pos hst]
      exact ⟨fun _ => rfl, fun h => absurd h hst⟩
  · intro p n hwp
    have h3 : (adsSyncReadWriteReq env adr g o rt v wt).1 =
        (if (env.tp.readWriteResp g o rt.sizeBytes p n).1 ≠ 0 then
          Except.error (AdsException.ads (mkADSError env.errorCodes
            (env.tp.readWriteResp g o rt.sizeBytes p n).1))
         else decodeRead rt (env.tp.readWriteResp g o rt.sizeBytes p n).2) := by
      simp only [adsSyncReadWriteReq, win32_only, hw, if_true, hwp]
      by_cases hst : (env.tp.readWriteResp g o rt.sizeBytes p n).1 = 0
      · rw [if_neg (by simp [hst]), if_neg (by simp [hst])]
        cases hd : decodeRead rt (env.tp.readWriteResp g o rt.sizeBytes p n).2 <;> simp [hd]
      · rw [if_pos hst, if_pos hst]
    rw [h3]
    by_cases hst : (env.tp.readWriteResp g o rt.sizeBytes p n).1 = 0
    · rw [if_neg (by simp [hst])]
      refine ⟨fun h => absurd hst h, ?_, fun r _ => hst⟩
      intro e he
      have h4 := decodeRead_error_unicode rt _ _ he
      simp at h4
    · rw [if_pos hst]
      refine ⟨fun _ => rfl, ?_, ?_⟩
      · intro e he
        simp only [Except.error.injEq, AdsException.ads.injEq] at he
        exact ⟨he.symm, hst⟩
      · intro r hr
        simp at hr
  · intro p n hwp
    have h2 : (adsSyncWriteControlReq env adr a d v ty).1 =
        (if env.tp.writeControlResp a d p n ≠ 0 then
          Except.error (AdsException.ads (mkADSError env.errorCodes (env.tp.writeControlResp a d p n)))
         else Except.ok ()) := by
      simp only [adsSyncWriteControlReq, win32_only, hw, if_true, hwp]
      split <;> simp_all
    rw [h2]
    by_cases hst : env.tp.writeControlResp a d p n = 0
    · rw [if_neg (by simp [hst])]
      exact ⟨fun h => absurd hst h, fun _ => rfl⟩
    · rw [if_pos hst]
      exact ⟨fun _ => rfl, fun h => absurd h hst⟩

def exampleTable : Nat → Option String := fun c =>
  if c = 1793 then some ("Service is not supported by server") else none

/-- C6: constructing an ADSError from any numeric code always succeeds
(the constructor is total); when the code is in the error-code table the
message is the table description followed by the code in parentheses,
otherwise it is the generic unknown-error text with the code; in both
cases the message contains the numeric code. -/
theorem adserror_construction (table : Nat → Option String) (code : Nat) :
    (mkADSError table code).err_code = code ∧
    (∀ desc : String, table code = some desc →
      (mkADSError table code).msg = desc ++ " (" ++ toString code ++ ")") ∧
    (table code = none →
      (mkADSError table code).msg = "Unknown Error (" ++ toString code ++ ")") ∧
    (∃ pre : String, (mkADSError table code).msg = pre ++ toString code ++ ")") := by
  refine ⟨rfl, ?_, ?_, ?_⟩
  · intro desc h
    simp [mkADSError, h]
  · intro h
    simp [mkADSError, h]
  · cases h : table code with
    | none =>
      refine ⟨"Unknown Error (", ?_⟩
      simp [mkADSError, h, String.append_assoc]
    | some desc =>
      refine ⟨desc ++ " (", ?_⟩
      simp [mkADSError, h, String.append_assoc]

/-- C6 (witness): the construction theorem applied to a concrete table
at a known code (1793) and an unknown code (99). -/
theorem adserror_construction_witness :
    (mkADSError exampleTable 1793).err_code = 1793 ∧
    (mkADSError exampleTable 1793).msg = "Service is not supported by server (1793)" ∧
    (mkADSError exampleTable 99).msg = "Unknown Error (99)" := by
  have h1 := adserror_construction exampleTable 1793
  have h2 := adserror_construction exampleTable 99
  refine ⟨h1.1, ?_, h2.2.2.1 rfl⟩
  have h3 := h1.2.1 ("Service is not supported by server") rfl
  rw [h3]
  rfl

/-- C7: on a platform where the transport DLL is unavailable
(windows = false) every public operation of the module raises the
RuntimeError of the win32_only gate, whose message names the operation,
and issues no transport call (empty trace) and leaves the callback store
untouched. -/
theorem platform_gate_blocks_operations
    (env : Env) (adr : AmsAddr) (g o a d nMs nh uh cb : Nat)
    (ty rt wt : PlcType) (v : PyValue) (s : String)
    (attrib : NotificationAttrib) (uo : Option Nat) (store : CallbackStore)
    (hw : env.windows = false) :
    adsGetDllVersion env = (Except.error (AdsException.runtime (platformMsg ("adsGetDllVersion"))), []) ∧
    adsPortOpen env = (Except.error (AdsException.runtime (platformMsg ("adsPortOpen"))), []) ∧
    adsPortClose env = (Except.error (AdsException.runtime (platformMsg ("adsPortClose"))), []) ∧
    adsGetLocalAddress env = (Except.error (AdsException.runtime (platformMsg ("adsGetLocalAddress"))), []) ∧
    adsSyncReadStateReq env adr = (Except.error (AdsException.runtime (platformMsg ("adsSyncReadStateReq"))), []) ∧
    adsSyncReadDeviceInfoReq env adr = (Except.error (AdsException.runtime (platformMsg ("adsSyncReadDeviceInfoReq"))), []) ∧
    adsSyncWriteControlReq env adr a d v ty = (Except.error (AdsException.runtime (platformMsg ("adsSyncWriteControlReq"))), []) ∧
    adsSyncWriteReq env adr g o v ty = (Except.error (AdsException.runtime (platformMsg ("adsSyncWriteReq"))), []) ∧
    adsSyncReadWriteReq env adr g o rt v wt = (Except.error (AdsException.runtime (platformMsg ("adsSyncReadWriteReq"))), []) ∧
    adsSyncReadReq env adr g o ty = (Except.error (AdsException.runtime (platformMsg ("adsSyncReadReq"))), []) ∧
    adsSyncReadByName env adr s ty = (Except.error (AdsException.runtime (platformMsg ("adsSyncReadByName"))), []) ∧
    adsSyncWriteByName env adr s v ty = (Except.error (AdsException.runtime (platformMsg ("adsSyncWriteByName"))), []) ∧
    adsSyncAddDeviceNotificationReq env adr s attrib cb uo store =
      (Except.error (AdsException.runtime (platformMsg ("adsSyncAddDeviceNotificationReq"))), [], store) ∧
    adsSyncDelDeviceNotificationReq env adr nh uh store =
      (Except.error (AdsException.runtime (platformMsg ("adsSyncDelDeviceNotificationReq"))), [], store) ∧
    adsSyncSetTimeout env nMs = (Except.error (AdsException.runtime (platformMsg ("adsSyncSetTimeout"))), []) ∧
    (∀ name : String, platformMsg name =
      name ++ " is only supported when using the TcAdsDll (win32).") := by
  refine ⟨?_, ?_, ?_, ?_, ?_, ?_, ?_, ?_, ?_, ?_, ?_, ?_, ?_, ?_, ?_, fun _ => rfl⟩ <;>
    simp [adsGetDllVersion, adsPortOpen, adsPortClose, adsGetLocalAddress,
      adsSyncReadStateReq, adsSyncReadDeviceInfoReq, adsSyncWriteControlReq,
      adsSyncWriteReq, adsSyncReadWriteReq, adsSyncReadReq, adsSyncReadByName,
      adsSyncWriteByName, adsSyncAddDeviceNotificationReq, adsSyncDelDeviceNotificationReq,
      adsSyncSetTimeout, win32_only, win32_onlyS, hw]

/-- C7 (witness): the gate theorem applied to the non-Windows
environment envOff for a read and an unsubscribe. -/
theorem platform_gate_blocks_operations_witness :
    adsSyncReadReq envOff someAddr 16416 0 PlcType.string =
      (Except.error (AdsException.runtime (platformMsg ("adsSyncReadReq"))), []) ∧
    adsSyncDelDeviceNotificationReq envOff someAddr 7 1001 [(7, some 42)] =
      (Except.error (AdsException.runtime (platformMsg ("adsSyncDelDeviceNotificationReq"))), [],
       [(7, some 42)]) := by
  have h := platform_gate_blocks_operations envOff someAddr 16416 0 0 0 0 7 1001 42
    PlcType.string PLCTYPE_UDINT PlcType.string (PyValue.num 0) ("MAIN.x") attrib0 none
    [(7, some 42)] rfl
  exact ⟨h.2.2.2.2.2.2.2.2.2.1, h.2.2.2.2.2.2.2.2.2.2.2.2.2.1⟩

/-- C8 (amended): encoding a string for a write (adsSyncWriteReq with
the string PLC type) sends the entire encoded text up to its first
embedded null byte, followed by a null terminator, declaring length
byte-count + 1; no capacity-based truncation occurs anywhere on the
write path. -/
theorem stringWrite_sends_full_text
    (env : Env) (adr : AmsAddr) (g o : Nat) (s : String)
    (hw : env.windows = true) :
    (adsSyncWriteReq env adr g o (PyValue.str s) PlcType.string).2 =
      [Call.write adr g o (cstrValue (strBytes s) ++ [0])
        ((cstrValue (strBytes s)).length + 1)] := by
  have hp : writePayload (PyValue.str s) PlcType.string =
      Except.ok (cstrValue (strBytes s) ++ [0], (cstrValue (strBytes s)).length + 1) := rfl
  simp only [adsSyncWriteReq, win32_only, hw, if_true, hp]
  split <;> rfl

/-- C8 (counterexample): with FixedString capacity 4 the claim allows at
most 3 text bytes plus a null (4 bytes total), but writing the 10-letter
string sends all 10 text bytes plus the null terminator, 11 bytes, with
declared length 11. -/
theorem stringWrite_claim_counterexample :
    (adsSyncWriteReq envOk someAddr 16416 0 (PyValue.str ("abcdefghij")) PlcType.string).2 =
      [Call.write someAddr 16416 0
        [97, 98, 99, 100, 101, 102, 103, 104, 105, 106, 0] 11] ∧
    ¬ (11 ≤ 4) := by
  exact ⟨rfl, by decide⟩

/-- C8 (witness): the amended theorem applied to the all-success device
with the two-letter string. -/
theorem stringWrite_sends_full_text_witness :
    (adsSyncWriteReq envOk someAddr 16416 0 (PyValue.str ("Hi")) PlcType.string).2 =
      [Call.write someAddr 16416 0 [72, 105, 0] 3] := by
  exact stringWrite_sends_full_text envOk someAddr 16416 0 ("Hi") rfl

theorem cstr_take_stops_at_null (dev rest : List Nat) (n : Nat)
    (hlen : dev.length < n) (hval : ∀ b ∈ dev, b ≠ 0) :
    ((dev ++ 0 :: rest).take n).takeWhile (fun b => b != 0) = dev := by
  induction dev generalizing n with
  | nil =>
    cases n with
    | zero => omega
    | succ m => simp [List.takeWhile]
  | cons hd tl ih =>
    cases n with
    | zero => simp at hlen
    | succ m =>
      have hhd : hd ≠ 0 := hval hd (by simp)
      simp only [List.cons_append, List.take_succ_cons, List.takeWhile_cons]
      rw [if_pos (by simpa using hhd)]
      rw [ih m (by simpa using hlen) (fun b hb => hval b (by simp [hb]))]

/-- C9: a string-typed read decodes the receive buffer as the prefix up
to (not including) the first null byte, the whole buffer when no null is
present; in particular a buffer holding the bytes of Device1 followed by
a null and arbitrary further bytes decodes to the string Device1. -/
theorem stringRead_stops_at_null
    (env : Env) (adr : AmsAddr) (g o : Nat) (buf rest : List Nat)
    (hw : env.windows = true) :
    (env.tp.readResp g o STRING_BUFFER = (0, buf) →
      (adsSyncReadReq env adr g o PlcType.string).1 =
        (match pyDecode ((buf.take STRING_BUFFER).takeWhile (fun b => b != 0)) with
         | some s => Except.ok (PyValue.str s)
         | none => Except.error AdsException.unicodeError)) ∧
    (env.tp.readResp g o STRING_BUFFER = (0, strBytes ("Device1") ++ 0 :: rest) →
      (adsSyncReadReq env adr g o PlcType.string).1 = Except.ok (PyValue.str ("Device1"))) := by
  have hsz : PlcType.string.sizeBytes = STRING_BUFFER := rfl
  constructor
  · intro h
    rw [adsSyncReadReq_eq env adr g o PlcType.string hw]
    rw [hsz, h]
    simp [decodeRead, cstrValue]
  · intro h
    rw [adsSyncReadReq_eq env adr g o PlcType.string hw]
    rw [hsz, h]
    simp only [ne_eq, not_true_eq_false, if_false, reduceIte]
    have hdev : strBytes ("Device1") = [68, 101, 118, 105, 99, 101, 49] := rfl
    rw [hdev]
    show decodeRead PlcType.string ([68, 101, 118, 105, 99, 101, 49] ++ 0 :: rest) =
      Except.ok (PyValue.str ("Device1"))
    unfold decodeRead cstrValue
    rw [cstr_take_stops_at_null [68, 101, 118, 105, 99, 101, 49] rest STRING_BUFFER
      (by decide) (by decide)]
    rfl

def envDevice1 : Env :=
  { windows := true, errorCodes := fun _ => none
    tp := { zeroTransport with readResp := fun _ _ _ =>
      (0, [68, 101, 118, 105, 99, 101, 49, 0, 103, 97, 114, 98, 97, 103, 101]) } }

/-- C9 (witness): the read theorem applied to a device returning the
bytes of Device1, a null byte, then the bytes of garbage. -/
theorem stringRead_stops_at_null_witness :
    (adsSyncReadReq envDevice1 someAddr 16416 0 PlcType.string).1 =
      Except.ok (PyValue.str ("Device1")) := by
  exact (stringRead_stops_at_null envDevice1 someAddr 16416 0 []
    [103, 97, 114, 98, 97, 103, 101] rfl).2 rfl

/-- C5 (witness): the status-mapping theorem applied to the device whose
reads fail with status 1 (ADSError 1 raised) and to the all-success
device (write returns successfully on status 0). -/
theorem requestLayer_status_mapping_witness :
    (adsSyncReadReq envReadFails someAddr 16416 0 PLCTYPE_UDINT).1 =
      Except.error (AdsException.ads (mkADSError envReadFails.errorCodes 1)) ∧
    (adsSyncWriteReq envOk someAddr 16416 0 (PyValue.num 5) PLCTYPE_UDINT).1 = Except.ok () := by
  have h1 := requestLayer_status_mapping envReadFails someAddr 16416 0 0 0 PLCTYPE_UDINT
    PLCTYPE_UDINT PlcType.string (PyValue.num 5) rfl
  have h2 := requestLayer_status_mapping envOk someAddr 16416 0 0 0 PLCTYPE_UDINT
    PLCTYPE_UDINT PlcType.string (PyValue.num 5) rfl
  refine ⟨h1.1.1 (by decide), ?_⟩
  exact (h2.2.1 (toBytesLE 4 5) 4 rfl).2 rfl

end PyAds
